/-
Verification of the GeoTagger EXIF transcoding core (src/App.tsx geoUtils section,
src/components/ExifEditor.tsx) against its specification.

Embedding conventions:
* JavaScript numbers are embedded as exact rationals (ℚ).  The numeric claims of the
  spec (round-trip bounds, rounding to fixed denominators) are statements about the
  ideal arithmetic the code implements; IEEE-754 noise is far below every bound involved.
* `Math.floor` is `Int.floor`; `Math.round` (round half toward +∞) is `jsRound` below.
* The piexifjs library (load / dump / insert) is not part of this repository; where a
  claim depends on it, it is modelled from the spec (marked `Modelled from the spec:`),
  and the codec functions of the repository are parameterised over / composed with it.
* EXIF IFDs (JS insertion-ordered objects) are embedded as association lists; a JS
  property assignment is `setTag` (replace in place, else append), a property read is
  `getTag`.  JS truthiness of tag values is `truthyVal` (empty strings and zero numbers
  are falsy, arrays are always truthy).
-/
import Mathlib

/-- JavaScript `Math.round`: rounds half toward positive infinity, `⌊x + 1/2⌋`. -/
def jsRound (x : ℚ) : ℤ := ⌊x + 1 / 2⌋

/-- `decimalToDms` from src/App.tsx lines 345-353: converts a decimal-degree value to
rational DMS tag form `[[degrees,1],[minutes,1],[seconds,10000]]`.  The source applies
`Math.abs` to its argument first. -/
def decimalToDms (decimal : ℚ) : List (ℤ × ℤ) :=
  let absolute : ℚ := |decimal|
  let degrees : ℤ := ⌊absolute⌋
  let minutesNotTruncated : ℚ := (absolute - (degrees : ℚ)) * 60
  let minutes : ℤ := ⌊minutesNotTruncated⌋
  let seconds : ℤ := jsRound ((minutesNotTruncated - (minutes : ℚ)) * 60 * 10000)
  [(degrees, 1), (minutes, 1), (seconds, 10000)]

/-- `dmsToDecimal` from src/App.tsx lines 356-370: guard `dms.length < 3` returns 0;
otherwise degrees + minutes/60 + seconds/3600, each term numerator/denominator, negated
when the hemisphere reference is "S" or "W". -/
def dmsToDecimal (dms : List (ℤ × ℤ)) (ref : String) : ℚ :=
  if dms.length < 3 then 0
  else
    let d := dms.getD 0 (0, 1)
    let m := dms.getD 1 (0, 1)
    let s := dms.getD 2 (0, 1)
    let deg : ℚ := (d.1 : ℚ) / (d.2 : ℚ)
    let mins : ℚ := (m.1 : ℚ) / (m.2 : ℚ)
    let sec : ℚ := (s.1 : ℚ) / (s.2 : ℚ)
    let decimal := deg + mins / 60 + sec / 3600
    if ref = "S" ∨ ref = "W" then -decimal else decimal

/-- Latitude hemisphere reference by sign, from src/App.tsx line 440
(`newGps.lat >= 0 ? 'N' : 'S'`). -/
def signRefLat (d : ℚ) : String := if 0 ≤ d then "N" else "S"

/-- Longitude hemisphere reference by sign, from src/App.tsx line 441
(`newGps.lng >= 0 ? 'E' : 'W'`). -/
def signRefLng (d : ℚ) : String := if 0 ≤ d then "E" else "W"

/-- A value stored under a tag id in an EXIF IFD, as piexifjs represents them in JS:
a string, a number, a single rational (pair), a list of rationals, or raw bytes. -/
inductive TagValue where
  | str : String → TagValue
  | num : ℤ → TagValue
  | rat : ℤ × ℤ → TagValue
  | rats : List (ℤ × ℤ) → TagValue
  | bytes : List Nat → TagValue
deriving DecidableEq

/-- An IFD (one tag group of the EXIF container): a JS insertion-ordered object keyed
by numeric tag ids, embedded as an association list. -/
abbrev IFD : Type := List (Nat × TagValue)

/-- Reading a property of a JS object: first (only) binding of the key, none if absent. -/
def getTag : IFD → Nat → Option TagValue
  | [], _ => none
  | (k1, v1) :: rest, k => if k1 = k then some v1 else getTag rest k

/-- Writing a property of a JS object: replace the binding in place if the key exists,
otherwise append it (JS objects preserve insertion order). -/
def setTag : IFD → Nat → TagValue → IFD
  | [], k, v => [(k, v)]
  | (k1, v1) :: rest, k, v =>
      if k1 = k then (k, v) :: rest else (k1, v1) :: setTag rest k v

/-- A sequence of JS property assignments, first to last. -/
def setTags (s : IFD) (kvs : List (Nat × TagValue)) : IFD :=
  kvs.foldl (fun acc kv => setTag acc kv.1 kv.2) s

/-- piexifjs tag id constants (standard EXIF tag numbers). -/
def makeTag : Nat := 271

def modelTag : Nat := 272

def dateTimeOriginalTag : Nat := 36867

def gpsVersionIDTag : Nat := 0

def gpsLatitudeRefTag : Nat := 1

def gpsLatitudeTag : Nat := 2

def gpsLongitudeRefTag : Nat := 3

def gpsLongitudeTag : Nat := 4

def gpsAltitudeRefTag : Nat := 5

def gpsAltitudeTag : Nat := 6

/-- The exif object piexifjs builds: one IFD per tag group plus an optional thumbnail
payload.  An absent group and an empty group behave identically in every operation the
source performs, so both are embedded as the empty list. -/
structure ExifObj where
  zeroth : IFD
  exif : IFD
  gps : IFD
  first : IFD
  thumbnail : Option (List Nat)
deriving DecidableEq

/-- The empty exif object: the `{}` returned on parse failure, and the skeleton
`{ "0th": {}, "Exif": {}, "GPS": {}, "1st": {}, "thumbnail": null }` used by
embedExifData when no store is present. -/
def emptyExifObj : ExifObj :=
  { zeroth := [], exif := [], gps := [], first := [], thumbnail := none }

/-- JS truthiness of a tag value: empty strings and the number 0 are falsy; arrays
(rationals, rational lists, byte lists) are always truthy. -/
def truthyVal : TagValue → Bool
  | .str s => !(s == "")
  | .num n => !(n == 0)
  | .rat _ => true
  | .rats _ => true
  | .bytes _ => true

/-- JS truthiness of a property read: absent (undefined) is falsy. -/
def truthyOpt : Option TagValue → Bool
  | none => false
  | some v => truthyVal v

/-- Coercion of an untyped tag value to the `number[][]` dmsToDecimal expects.  The GPS
coordinate tags this codec reads and writes are rational lists; for any other shape the
JS code would produce NaN arithmetic, embedded here as the defensive empty list. -/
def asDmsValue : Option TagValue → List (ℤ × ℤ)
  | some (.rats l) => l
  | _ => []

/-- Coercion of an untyped tag value to the hemisphere-reference string. -/
def asStrValue : Option TagValue → String
  | some (.str s) => s
  | _ => ""

/-- Coercion of an untyped tag value to the single rational altitude pair. -/
def asRatValue : Option TagValue → ℤ × ℤ
  | some (.rat p) => p
  | _ => (0, 1)

/-- `GPSData` from src/unnamed/part_000 (types.ts): lat, lng, optional altitude. -/
structure GPSData where
  lat : ℚ
  lng : ℚ
  altitude : Option ℚ
deriving DecidableEq

/-- `ExifMetadata` from src/unnamed/part_000 (types.ts): derived display fields plus
the retained raw piexifjs object. -/
structure ExifMetadata where
  make : Option TagValue
  model : Option TagValue
  dateTimeOriginal : Option TagValue
  gps : Option GPSData
  rawExifObj : Option ExifObj
deriving DecidableEq

/-- `parseExifData` from src/App.tsx lines 372-429, parameterised over the result of
`piexif.load` (external library): `none` models a throw, caught by the try/catch at
lines 373-379, which returns `{ rawExifObj: {} }`.  On success the derived fields are
populated only when the corresponding tag reads are truthy, and GPS only when all four
of latitude, latitude ref, longitude, longitude ref are truthy (lines 410-425). -/
def parseExifData (loadResult : Option ExifObj) : ExifMetadata :=
  match loadResult with
  | none =>
      { make := none, model := none, dateTimeOriginal := none, gps := none,
        rawExifObj := some emptyExifObj }
  | some exifObj =>
      let makeV := getTag exifObj.zeroth makeTag
      let modelV := getTag exifObj.zeroth modelTag
      let dateV := getTag exifObj.exif dateTimeOriginalTag
      let lat := getTag exifObj.gps gpsLatitudeTag
      let latRef := getTag exifObj.gps gpsLatitudeRefTag
      let lng := getTag exifObj.gps gpsLongitudeTag
      let lngRef := getTag exifObj.gps gpsLongitudeRefTag
      let alt := getTag exifObj.gps gpsAltitudeTag
      let altRef : ℤ :=
        match getTag exifObj.gps gpsAltitudeRefTag with
        | some (.num n) => n
        | _ => 0
      let gps : Option GPSData :=
        if truthyOpt lat && truthyOpt latRef && truthyOpt lng && truthyOpt lngRef then
          let finalLat := dmsToDecimal (asDmsValue lat) (asStrValue latRef)
          let finalLng := dmsToDecimal (asDmsValue lng) (asStrValue lngRef)
          let finalAlt : ℚ :=
            if truthyOpt alt then
              let p := asRatValue alt
              let v : ℚ := (p.1 : ℚ) / (p.2 : ℚ)
              if altRef = 1 then -v else v
            else 0
          some { lat := finalLat, lng := finalLng, altitude := some finalAlt }
        else none
      { make := if truthyOpt makeV then makeV else none,
        model := if truthyOpt modelV then modelV else none,
        dateTimeOriginal := if truthyOpt dateV then dateV else none,
        gps := gps,
        rawExifObj := some exifObj }

/-- The full decode operation: `piexif.load` (external, abstracted as a function that
returns none when it throws) composed with parseExifData. -/
def decodeImage (loadExif : List Nat → Option ExifObj) (bytes : List Nat) :
    ExifMetadata :=
  parseExifData (loadExif bytes)

/-- The sequence of GPS property assignments embedExifData performs
(src/App.tsx lines 438-456), in source order: latitude, latitude ref, longitude,
longitude ref, then — only when `newGps.altitude !== undefined` — altitude (rounded to
centimeters over denominator 100) and its below-sea-level flag. -/
def gpsWriteList (newGps : GPSData) : List (Nat × TagValue) :=
  [(gpsLatitudeTag, TagValue.rats (decimalToDms newGps.lat)),
   (gpsLatitudeRefTag, TagValue.str (signRefLat newGps.lat)),
   (gpsLongitudeTag, TagValue.rats (decimalToDms newGps.lng)),
   (gpsLongitudeRefTag, TagValue.str (signRefLng newGps.lng))] ++
  (match newGps.altitude with
   | some altV =>
       [(gpsAltitudeTag, TagValue.rat (jsRound (|altV| * 100), 100)),
        (gpsAltitudeRefTag, TagValue.num (if altV < 0 then 1 else 0))]
   | none => [])

/-- The GPS-group mutation of embedExifData (src/App.tsx lines 438-461): the
assignments of gpsWriteList followed by the conditional GPSVersionID default
(`if (!exifObj["GPS"][GPSVersionID])`, a truthiness test). -/
def writeGpsTags (gps0 : IFD) (newGps : GPSData) : IFD :=
  let g := setTags gps0 (gpsWriteList newGps)
  if truthyOpt (getTag g gpsVersionIDTag) then g
  else setTag g gpsVersionIDTag (TagValue.bytes [2, 2, 0, 0])

/-- The tag-store transformation performed by embedExifData on the exif object it
operates on (which, per JS reference semantics, is the caller's `metadata.rawExifObj`
when that is present): only the GPS group is written. -/
def embedStoreObj (exifObj : ExifObj) (newGps : GPSData) : ExifObj :=
  { exifObj with gps := writeGpsTags exifObj.gps newGps }

/-- The caller's tag store after embedExifData returns.  In the source (line 432)
`exifObj` aliases `metadata.rawExifObj` whenever that field is present (any JS object,
even `{}`, is truthy), and the tag assignments mutate it in place; only when the field
is absent does the code build a fresh local skeleton, leaving the caller untouched.
This definition passes that state explicitly. -/
def callerStoreAfterEncode (metadata : ExifMetadata) (newGps : GPSData) :
    Option ExifObj :=
  match metadata.rawExifObj with
  | none => none
  | some e => some (embedStoreObj e newGps)

/-- Modelled from the spec: a concrete injective-enough byte encoding of one tag value,
standing in for the binary encoding piexif.dump (external library, not in src) gives
each tag.  Only its congruence (equal values give equal bytes) is relied on. -/
def serializeValue : TagValue → List Nat
  | .str s => 0 :: (s.toList.map Char.toNat)
  | .num n => 1 :: [n.toNat, (-n).toNat]
  | .rat p => 2 :: [p.1.toNat, (-p.1).toNat, p.2.toNat, (-p.2).toNat]
  | .rats l => 3 :: l.flatMap (fun p => [p.1.toNat, (-p.1).toNat, p.2.toNat, (-p.2).toNat])
  | .bytes b => 4 :: b

/-- Modelled from the spec: piexif.dump serializes each tag group independently into
its segment of the container (spec section 4.2), so a group's bytes are a function of
that group alone. -/
def serializeGroup (ifd : IFD) : List Nat :=
  ifd.flatMap fun kv => kv.1 :: serializeValue kv.2

/-- Modelled from the spec: the serialized tag container piexif.dump (external, not in
src) produces — the concatenation of the per-group segments and the thumbnail
payload. -/
def piexifDump (e : ExifObj) : List Nat :=
  serializeGroup e.zeroth ++ serializeGroup e.exif ++ serializeGroup e.gps ++
    serializeGroup e.first ++ (e.thumbnail.getD [])

/-- The hard failure of the encode path (spec section 7): the byte stream is not
splice-able as a JPEG. -/
inductive StructuralError where
  | notAJpeg : StructuralError
deriving DecidableEq

/-- Modelled from the spec: a JPEG byte stream must begin with the SOI marker
0xFF 0xD8; a stream lacking the required markers is not splice-able. -/
def hasJpegMarkers : List Nat → Bool
  | 255 :: 216 :: _ => true
  | _ => false

/-- Modelled from the spec: piexif.insert (external, not in src) splices the serialized
container into the original JPEG byte stream, replacing only the metadata segment, and
fails with a StructuralError when the required markers are absent (spec sections 4.2
and 7). -/
def piexifInsert (exifBytes : List Nat) (jpeg : List Nat) :
    Except StructuralError (List Nat) :=
  if hasJpegMarkers jpeg then
    Except.ok (jpeg.take 2 ++ exifBytes ++ jpeg.drop 2)
  else Except.error StructuralError.notAJpeg

/-- `embedExifData` from src/App.tsx lines 431-467: start from the retained store (or
the empty skeleton when absent), write the GPS tags, dump and splice. -/
def embedExifData (originalBytes : List Nat) (metadata : ExifMetadata)
    (newGps : GPSData) : Except StructuralError (List Nat) :=
  let exifObj := (metadata.rawExifObj).getD emptyExifObj
  let exifObj := embedStoreObj exifObj newGps
  let exifBytes := piexifDump exifObj
  piexifInsert exifBytes originalBytes

/-- `handleManualChange` from src/components/ExifEditor.tsx lines 29-41, parameterised
over the results of the three `parseFloat` calls (`none` models NaN): when latitude and
longitude both parse, the working position is replaced (altitude defaulting to 0 when
its parse failed); otherwise nothing happens and the current position is returned. -/
def handleManualChange (latParsed lngParsed altParsed : Option ℚ)
    (current : GPSData) : GPSData :=
  match latParsed, lngParsed with
  | some lat, some lng => { lat := lat, lng := lng, altitude := some (altParsed.getD 0) }
  | _, _ => current

theorem getTag_setTag_self (s : IFD) (k : Nat) (v : TagValue) :
    getTag (setTag s k v) k = some v := by
  induction s with
  | nil => simp [setTag, getTag]
  | cons kv rest ih =>
      obtain ⟨k1, v1⟩ := kv
      by_cases h : k1 = k
      · simp [setTag, getTag, h]
      · simp [setTag, getTag, h, ih]

theorem getTag_setTag_ne (s : IFD) (k k1 : Nat) (v : TagValue) (h : k1 ≠ k) :
    getTag (setTag s k1 v) k = getTag s k := by
  induction s with
  | nil => simp [setTag, getTag, h]
  | cons kv rest ih =>
      obtain ⟨k2, v2⟩ := kv
      by_cases h2 : k2 = k1
      · subst h2
        simp [setTag, getTag, h]
      · by_cases h3 : k2 = k <;>
          simp [setTag, getTag, h2, h3, h, Ne.symm h, ih]

theorem setTag_eq_of_getTag (s : IFD) (k : Nat) (v : TagValue)
    (h : getTag s k = some v) : setTag s k v = s := by
  induction s with
  | nil => simp [getTag] at h
  | cons kv rest ih =>
      obtain ⟨k1, v1⟩ := kv
      by_cases h1 : k1 = k
      · subst h1
        simp [getTag] at h
        simp [setTag, h]
      · simp [getTag, h1] at h
        simp [setTag, h1, ih h]

theorem getTag_setTags_not_mem (kvs : List (Nat × TagValue)) (s : IFD) (k : Nat)
    (h : k ∉ kvs.map Prod.fst) : getTag (setTags s kvs) k = getTag s k := by
  induction kvs generalizing s with
  | nil => rfl
  | cons kv rest ih =>
      obtain ⟨k1, v1⟩ := kv
      simp only [List.map_cons, List.mem_cons, not_or] at h
      rw [setTags, List.foldl_cons]
      have := ih (setTag s k1 v1) h.2
      rw [setTags] at this
      rw [this, getTag_setTag_ne s k k1 v1 (Ne.symm h.1)]

theorem getTag_setTags_mem (kvs : List (Nat × TagValue)) (s : IFD) (k : Nat)
    (v : TagValue) (hmem : (k, v) ∈ kvs) (hnd : (kvs.map Prod.fst).Nodup) :
    getTag (setTags s kvs) k = some v := by
  induction kvs generalizing s with
  | nil => simp at hmem
  | cons kv rest ih =>
      obtain ⟨k1, v1⟩ := kv
      simp only [List.map_cons, List.nodup_cons] at hnd
      rw [setTags, List.foldl_cons]
      rcases List.mem_cons.mp hmem with heq | htail
      · injection heq with hk hv
        subst hk
        subst hv
        have := getTag_setTags_not_mem rest (setTag s k v) k hnd.1
        rw [setTags] at this
        rw [this, getTag_setTag_self]
      · exact ih (setTag s k1 v1) htail hnd.2

theorem setTags_no_op (kvs : List (Nat × TagValue)) (s : IFD)
    (h : ∀ kv ∈ kvs, getTag s kv.1 = some kv.2) : setTags s kvs = s := by
  induction kvs with
  | nil => rfl
  | cons kv rest ih =>
      obtain ⟨k1, v1⟩ := kv
      rw [setTags, List.foldl_cons]
      have h1 : setTag s k1 v1 = s :=
        setTag_eq_of_getTag s k1 v1 (h (k1, v1) (List.mem_cons_self ..))
      rw [h1]
      exact ih fun kv hkv => h kv (List.mem_cons_of_mem _ hkv)

theorem gpsWriteList_keys_nodup (g : GPSData) :
    ((gpsWriteList g).map Prod.fst).Nodup := by
  rcases g with ⟨la, ln, alt⟩
  rcases alt with _ | a <;>
    simp [gpsWriteList, gpsLatitudeTag, gpsLatitudeRefTag, gpsLongitudeTag,
      gpsLongitudeRefTag, gpsAltitudeTag, gpsAltitudeRefTag]

theorem gpsWriteList_key_ne_version (g : GPSData) :
    ∀ kv ∈ gpsWriteList g, kv.1 ≠ gpsVersionIDTag := by
  rcases g with ⟨la, ln, alt⟩
  intro kv hkv
  rcases alt with _ | a
  · simp [gpsWriteList] at hkv
    rcases hkv with rfl | rfl | rfl | rfl <;>
      simp [gpsLatitudeTag, gpsLatitudeRefTag, gpsLongitudeTag, gpsLongitudeRefTag,
        gpsVersionIDTag]
  · simp [gpsWriteList] at hkv
    rcases hkv with rfl | rfl | rfl | rfl | rfl | rfl <;>
      simp [gpsLatitudeTag, gpsLatitudeRefTag, gpsLongitudeTag, gpsLongitudeRefTag,
        gpsAltitudeTag, gpsAltitudeRefTag, gpsVersionIDTag]

theorem getTag_writeGpsTags_mem (s : IFD) (g : GPSData) (k : Nat) (v : TagValue)
    (hmem : (k, v) ∈ gpsWriteList g) (hk : k ≠ gpsVersionIDTag) :
    getTag (writeGpsTags s g) k = some v := by
  simp only [writeGpsTags]
  split
  · exact getTag_setTags_mem _ s k v hmem (gpsWriteList_keys_nodup g)
  · rw [getTag_setTag_ne _ k gpsVersionIDTag _ (Ne.symm hk)]
    exact getTag_setTags_mem _ s k v hmem (gpsWriteList_keys_nodup g)

theorem getTag_writeGpsTags_version_truthy (s : IFD) (g : GPSData) :
    truthyOpt (getTag (writeGpsTags s g) gpsVersionIDTag) = true := by
  simp only [writeGpsTags]
  split
  · assumption
  · rw [getTag_setTag_self]
    rfl

theorem writeGpsTags_idem (s : IFD) (g : GPSData) :
    writeGpsTags (writeGpsTags s g) g = writeGpsTags s g := by
  have hset : setTags (writeGpsTags s g) (gpsWriteList g) = writeGpsTags s g := by
    apply setTags_no_op
    intro kv hkv
    exact getTag_writeGpsTags_mem s g kv.1 kv.2 (by simpa using hkv)
      (gpsWriteList_key_ne_version g kv hkv)
  conv_lhs => rw [writeGpsTags]
  rw [hset, if_pos (getTag_writeGpsTags_version_truthy s g)]

theorem embedStoreObj_idem (e : ExifObj) (g : GPSData) :
    embedStoreObj (embedStoreObj e g) g = embedStoreObj e g := by
  show ({ e with gps := writeGpsTags (writeGpsTags e.gps g) g } : ExifObj) =
    { e with gps := writeGpsTags e.gps g }
  rw [writeGpsTags_idem]

theorem jsRound_sub_le (x : ℚ) : |(jsRound x : ℚ) - x| ≤ 1 / 2 := by
  rw [abs_le]
  constructor
  · have h := Int.lt_floor_add_one (x + 1 / 2)
    rw [jsRound]
    push_cast at h ⊢
    linarith
  · have h := Int.floor_le (x + 1 / 2)
    rw [jsRound]
    linarith

theorem dmsToDecimal_cons (p q r : ℤ × ℤ) (rest : List (ℤ × ℤ)) (ref : String) :
    dmsToDecimal (p :: q :: r :: rest) ref =
      (if ref = "S" ∨ ref = "W" then -1 else 1) *
        ((p.1 : ℚ) / (p.2 : ℚ) + ((q.1 : ℚ) / (q.2 : ℚ)) / 60 +
          ((r.1 : ℚ) / (r.2 : ℚ)) / 3600) := by
  have hlen : ¬ ((p :: q :: r :: rest).length < 3) := by
    simp [List.length_cons]
  rw [dmsToDecimal, if_neg hlen]
  by_cases h : ref = "S" ∨ ref = "W" <;> simp [h]

theorem roundtrip_algebra (a R : ℚ) :
    (⌊a⌋ : ℚ) / 1 + ((⌊(a - (⌊a⌋ : ℚ)) * 60⌋ : ℚ) / 1) / 60 + (R / 10000) / 3600 - a =
      (R - ((a - (⌊a⌋ : ℚ)) * 60 - (⌊(a - (⌊a⌋ : ℚ)) * 60⌋ : ℚ)) * 60 * 10000) /
        36000000 := by
  ring

theorem roundtrip_core (a : ℚ) (ha : 0 ≤ a) :
    |dmsToDecimal (decimalToDms a) "N" - a| ≤ 1 / 72000000 := by
  have habs : |a| = a := abs_of_nonneg ha
  have hd : decimalToDms a =
      [(⌊a⌋, 1), (⌊(a - (⌊a⌋ : ℚ)) * 60⌋, 1),
        (jsRound (((a - (⌊a⌋ : ℚ)) * 60 - (⌊(a - (⌊a⌋ : ℚ)) * 60⌋ : ℚ)) * 60 * 10000),
          10000)] := by
    simp [decimalToDms, habs]
  rw [hd, dmsToDecimal_cons]
  rw [if_neg (by decide), one_mul]
  have key := roundtrip_algebra a
    ((jsRound (((a - (⌊a⌋ : ℚ)) * 60 - (⌊(a - (⌊a⌋ : ℚ)) * 60⌋ : ℚ)) * 60 * 10000) : ℚ))
  push_cast
  push_cast at key
  rw [key]
  have hb := jsRound_sub_le
    (((a - (⌊a⌋ : ℚ)) * 60 - (⌊(a - (⌊a⌋ : ℚ)) * 60⌋ : ℚ)) * 60 * 10000)
  rw [abs_div]
  have h36 : |(36000000 : ℚ)| = 36000000 := by norm_num
  rw [h36]
  rw [div_le_div_iff₀ (by norm_num) (by norm_num)]
  nlinarith [hb]

theorem dmsToDecimal_neg_ref (dms : List (ℤ × ℤ)) (ref : String)
    (h : ref = "S" ∨ ref = "W") :
    dmsToDecimal dms ref = -dmsToDecimal dms "N" := by
  rw [dmsToDecimal, dmsToDecimal]
  by_cases hlen : dms.length < 3
  · simp [hlen]
  · simp only [if_neg hlen]
    rw [if_pos h, if_neg (by decide)]

theorem dmsToDecimal_pos_ref (dms : List (ℤ × ℤ)) (ref : String)
    (h : ¬ (ref = "S" ∨ ref = "W")) :
    dmsToDecimal dms ref = dmsToDecimal dms "N" := by
  rw [dmsToDecimal, dmsToDecimal]
  by_cases hlen : dms.length < 3
  · simp [hlen]
  · simp only [if_neg hlen]
    rw [if_neg h, if_neg (by decide)]

/-- C1: for every decimal-degree value d in [-180, 180], converting |d| to DMS with
decimalToDms and converting back with dmsToDecimal under the hemisphere reference
matching the sign of d (N/S for latitude, E/W for longitude) yields a value differing
from d by less than 1.5e-5 degrees. -/
theorem dms_roundtrip_precision (d : ℚ) (h1 : -180 ≤ d) (h2 : d ≤ 180) :
    |dmsToDecimal (decimalToDms |d|) (signRefLat d) - d| < 15 / 1000000 ∧
    |dmsToDecimal (decimalToDms |d|) (signRefLng d) - d| < 15 / 1000000 := by
  have hcore : abs (dmsToDecimal (decimalToDms |d|) "N" - |d|) ≤ 1 / 72000000 := by
    have h := roundtrip_core |d| (abs_nonneg d)
    simpa using h
  rcases le_or_lt 0 d with hpos | hneg
  · have habs : |d| = d := abs_of_nonneg hpos
    constructor
    · rw [signRefLat, if_pos hpos, habs]
      rw [habs] at hcore
      linarith [hcore]
    · rw [signRefLng, if_pos hpos, habs,
        dmsToDecimal_pos_ref (decimalToDms d) "E" (by decide)]
      rw [habs] at hcore
      linarith [hcore]
  · have habs : |d| = -d := abs_of_neg hneg
    have hnot : ¬ (0 ≤ d) := not_le.mpr hneg
    have hflip : ∀ ref : String, ref = "S" ∨ ref = "W" →
        |dmsToDecimal (decimalToDms |d|) ref - d| ≤ 1 / 72000000 := by
      intro ref href
      rw [dmsToDecimal_neg_ref (decimalToDms |d|) ref href]
      have : -dmsToDecimal (decimalToDms |d|) "N" - d =
          -(dmsToDecimal (decimalToDms |d|) "N" - |d|) := by
        rw [habs]; ring
      rw [this, abs_neg]
      exact hcore
    constructor
    · rw [signRefLat, if_neg hnot]
      have := hflip "S" (Or.inl rfl)
      linarith [this]
    · rw [signRefLng, if_neg hnot]
      have := hflip "W" (Or.inr rfl)
      linarith [this]

theorem dms_roundtrip_precision_witness :
    (-180 ≤ (412995 / 10000 : ℚ) ∧ (412995 / 10000 : ℚ) ≤ 180) ∧
    (|dmsToDecimal (decimalToDms |(412995 / 10000 : ℚ)|) (signRefLat (412995 / 10000)) -
        412995 / 10000| < 15 / 1000000 ∧
      |dmsToDecimal (decimalToDms |(412995 / 10000 : ℚ)|) (signRefLng (412995 / 10000)) -
        412995 / 10000| < 15 / 1000000) :=
  ⟨⟨by norm_num, by norm_num⟩,
    dms_roundtrip_precision (412995 / 10000) (by norm_num) (by norm_num)⟩

/-- C2 counterexample: at input 1199999/72000000 (just below one arc-minute), the
fractional seconds land exactly on a round-half-up boundary and `decimalToDms` returns
a seconds component of 600000/10000 = 60, violating the claimed strict bound
seconds < 60. -/
theorem decimalToDms_seconds_eq_sixty :
    decimalToDms (1199999 / 72000000) = [(0, 1), (0, 1), (600000, 10000)] ∧
    ¬ ((600000 : ℚ) / 10000 < 60) := by
  constructor
  · have habs : |(1199999 / 72000000 : ℚ)| = 1199999 / 72000000 :=
      abs_of_nonneg (by norm_num)
    norm_num [decimalToDms, jsRound, habs, Int.fract]
  · norm_num

/-- C2 (amended): for every non-negative input, decimalToDms returns
`[(degrees,1),(minutes,1),(seconds,10000)]` with degrees ≥ 0, 0 ≤ minutes < 60 and
0 ≤ seconds ≤ 60 as rational values — seconds can equal exactly 60 when the input lies
within half of 1/10000 arc-second below the next whole minute, because the code rounds
half up; everything else in the claimed invariant holds. -/
theorem decimalToDms_invariant (d : ℚ) (h : 0 ≤ d) :
    ∃ De Mi Se : ℤ,
      decimalToDms d = [(De, 1), (Mi, 1), (Se, 10000)] ∧
      0 ≤ De ∧ 0 ≤ Mi ∧ Mi < 60 ∧ 0 ≤ Se ∧ (Se : ℚ) / 10000 ≤ 60 := by
  have habs : |d| = d := abs_of_nonneg h
  have hf0 : (0 : ℚ) ≤ d - (⌊d⌋ : ℚ) := by
    have := Int.floor_le d
    linarith
  have hf1 : d - (⌊d⌋ : ℚ) < 1 := by
    have := Int.lt_floor_add_one d
    linarith
  set mNT : ℚ := (d - (⌊d⌋ : ℚ)) * 60 with hmNT
  have hm0 : (0 : ℚ) ≤ mNT := mul_nonneg hf0 (by norm_num)
  have hm60 : mNT < 60 := by
    rw [hmNT]
    nlinarith
  have hg0 : (0 : ℚ) ≤ mNT - (⌊mNT⌋ : ℚ) := by
    have := Int.floor_le mNT
    linarith
  have hg1 : mNT - (⌊mNT⌋ : ℚ) < 1 := by
    have := Int.lt_floor_add_one mNT
    linarith
  set x : ℚ := (mNT - (⌊mNT⌋ : ℚ)) * 60 * 10000 with hx
  have hx0 : (0 : ℚ) ≤ x := by
    rw [hx]
    positivity
  have hx600000 : x < 600000 := by
    rw [hx]
    nlinarith
  refine ⟨⌊d⌋, ⌊mNT⌋, jsRound x, ?_, ?_, ?_, ?_, ?_, ?_⟩
  · simp only [decimalToDms, habs, hmNT, hx]
  · exact Int.floor_nonneg.mpr h
  · exact Int.floor_nonneg.mpr hm0
  · exact Int.floor_lt.mpr (by exact_mod_cast hm60)
  · rw [jsRound]
    apply Int.floor_nonneg.mpr
    linarith
  · have hle : (jsRound x : ℚ) ≤ x + 1 / 2 := by
      rw [jsRound]
      exact Int.floor_le (x + 1 / 2)
    have : (jsRound x : ℚ) < 600001 := by linarith
    have hSe : jsRound x ≤ 600000 := by
      have := (Int.lt_iff_add_one_le).mp (by exact_mod_cast this)
      omega
    rw [div_le_iff₀ (by norm_num)]
    have : ((600000 : ℤ) : ℚ) = 600000 := by norm_num
    calc (jsRound x : ℚ) ≤ ((600000 : ℤ) : ℚ) := by exact_mod_cast hSe
      _ = 60 * 10000 := by norm_num

theorem decimalToDms_invariant_witness :
    (0 : ℚ) ≤ 412995 / 10000 ∧
    ∃ De Mi Se : ℤ,
      decimalToDms (412995 / 10000) = [(De, 1), (Mi, 1), (Se, 10000)] ∧
      0 ≤ De ∧ 0 ≤ Mi ∧ Mi < 60 ∧ 0 ≤ Se ∧ (Se : ℚ) / 10000 ≤ 60 :=
  ⟨by norm_num, decimalToDms_invariant (412995 / 10000) (by norm_num)⟩

/-- C9: dmsToDecimal returns 0 when the angle has fewer than 3 components (defensive
default, not an error); otherwise it returns degrees + minutes/60 + seconds/3600, each
term the quotient of that rational's numerator by its denominator, negated exactly when
the hemisphere reference is "S" or "W". -/
theorem dmsToDecimal_spec (dms : List (ℤ × ℤ)) (ref : String) :
    (dms.length < 3 → dmsToDecimal dms ref = 0) ∧
    (∀ p q r rest, dms = p :: q :: r :: rest →
      dmsToDecimal dms ref =
        (if ref = "S" ∨ ref = "W" then -1 else 1) *
          ((p.1 : ℚ) / (p.2 : ℚ) + ((q.1 : ℚ) / (q.2 : ℚ)) / 60 +
            ((r.1 : ℚ) / (r.2 : ℚ)) / 3600)) := by
  constructor
  · intro hlen
    rw [dmsToDecimal, if_pos hlen]
  · rintro p q r rest rfl
    exact dmsToDecimal_cons p q r rest ref

theorem dmsToDecimal_spec_witness :
    dmsToDecimal [(41, 1), (17, 1), (582036, 10000)] "S" =
      (if ("S" : String) = "S" ∨ ("S" : String) = "W" then -1 else 1) *
        (((41 : ℤ) : ℚ) / ((1 : ℤ) : ℚ) + (((17 : ℤ) : ℚ) / ((1 : ℤ) : ℚ)) / 60 +
          (((582036 : ℤ) : ℚ) / ((10000 : ℤ) : ℚ)) / 3600) :=
  (dmsToDecimal_spec [(41, 1), (17, 1), (582036, 10000)] "S").2
    (41, 1) (17, 1) (582036, 10000) [] rfl

theorem signRefLat_ne_empty (d : ℚ) : (signRefLat d == "") = false := by
  rw [signRefLat]
  split <;> rfl

theorem signRefLng_ne_empty (d : ℚ) : (signRefLng d == "") = false := by
  rw [signRefLng]
  split <;> rfl

/-- C3: for every input byte stream on which the metadata container cannot be parsed
(the abstracted piexif.load returns none, modelling a throw caught by the try/catch),
decode returns a record with an empty tag store and no derived metadata fields
populated, and does not fail (it is a total function). -/
theorem decode_parse_failure (loadExif : List Nat → Option ExifObj) (bytes : List Nat)
    (h : loadExif bytes = none) :
    decodeImage loadExif bytes =
      { make := none, model := none, dateTimeOriginal := none, gps := none,
        rawExifObj := some emptyExifObj } := by
  rw [decodeImage, h]
  rfl

theorem decode_parse_failure_witness :
    (fun _ : List Nat => (none : Option ExifObj)) [] = none ∧
    decodeImage (fun _ : List Nat => (none : Option ExifObj)) [] =
      { make := none, model := none, dateTimeOriginal := none, gps := none,
        rawExifObj := some emptyExifObj } :=
  ⟨rfl, decode_parse_failure (fun _ => none) [] rfl⟩

/-- C4 counterexample: a GPS group in which all four position tags are present but the
latitude hemisphere reference is the empty string.  All four reads are present
(`isSome`), yet decode produces no GeoPosition, because the source tests JS truthiness
(`if (lat && latRef && lng && lngRef)`) and the empty string is falsy — refuting the
claimed "if and only if all four are present". -/
theorem gps_truthiness_counterexample :
    (getTag (ExifObj.mk [] []
        [(gpsLatitudeTag, TagValue.rats [(10, 1), (0, 1), (0, 10000)]),
         (gpsLatitudeRefTag, TagValue.str ""),
         (gpsLongitudeTag, TagValue.rats [(20, 1), (0, 1), (0, 10000)]),
         (gpsLongitudeRefTag, TagValue.str "E")] [] none).gps
        gpsLatitudeTag).isSome = true ∧
    (getTag (ExifObj.mk [] []
        [(gpsLatitudeTag, TagValue.rats [(10, 1), (0, 1), (0, 10000)]),
         (gpsLatitudeRefTag, TagValue.str ""),
         (gpsLongitudeTag, TagValue.rats [(20, 1), (0, 1), (0, 10000)]),
         (gpsLongitudeRefTag, TagValue.str "E")] [] none).gps
        gpsLatitudeRefTag).isSome = true ∧
    (getTag (ExifObj.mk [] []
        [(gpsLatitudeTag, TagValue.rats [(10, 1), (0, 1), (0, 10000)]),
         (gpsLatitudeRefTag, TagValue.str ""),
         (gpsLongitudeTag, TagValue.rats [(20, 1), (0, 1), (0, 10000)]),
         (gpsLongitudeRefTag, TagValue.str "E")] [] none).gps
        gpsLongitudeTag).isSome = true ∧
    (getTag (ExifObj.mk [] []
        [(gpsLatitudeTag, TagValue.rats [(10, 1), (0, 1), (0, 10000)]),
         (gpsLatitudeRefTag, TagValue.str ""),
         (gpsLongitudeTag, TagValue.rats [(20, 1), (0, 1), (0, 10000)]),
         (gpsLongitudeRefTag, TagValue.str "E")] [] none).gps
        gpsLongitudeRefTag).isSome = true ∧
    (parseExifData (some (ExifObj.mk [] []
        [(gpsLatitudeTag, TagValue.rats [(10, 1), (0, 1), (0, 10000)]),
         (gpsLatitudeRefTag, TagValue.str ""),
         (gpsLongitudeTag, TagValue.rats [(20, 1), (0, 1), (0, 10000)]),
         (gpsLongitudeRefTag, TagValue.str "E")] [] none))).gps = none := by
  refine ⟨rfl, rfl, rfl, rfl, ?_⟩
  rfl

/-- C4 (amended): decode produces a GeoPosition if and only if all four of latitude
magnitude, latitude hemisphere reference, longitude magnitude and longitude hemisphere
reference are present with JS-truthy values (in particular the reference strings must
be non-empty); if any is missing — or present but falsy, such as an empty reference
string — no GeoPosition is produced (no crash, no default of 0,0). -/
theorem gps_presence_iff_truthy (e : ExifObj) :
    ((parseExifData (some e)).gps).isSome =
      (truthyOpt (getTag e.gps gpsLatitudeTag) &&
        truthyOpt (getTag e.gps gpsLatitudeRefTag) &&
        truthyOpt (getTag e.gps gpsLongitudeTag) &&
        truthyOpt (getTag e.gps gpsLongitudeRefTag)) := by
  simp only [parseExifData]
  split <;> simp_all

/-- C5: for every byte stream lacking the required JPEG markers, encode fails with a
StructuralError and does not return a byte buffer. -/
theorem encode_structural_failure (bytes : List Nat) (metadata : ExifMetadata)
    (newGps : GPSData) (h : hasJpegMarkers bytes = false) :
    embedExifData bytes metadata newGps = Except.error StructuralError.notAJpeg := by
  simp only [embedExifData, piexifInsert, h]
  rfl

theorem encode_structural_failure_witness :
    hasJpegMarkers [0, 1, 2] = false ∧
    embedExifData [0, 1, 2]
      { make := none, model := none, dateTimeOriginal := none, gps := none,
        rawExifObj := none }
      { lat := 0, lng := 0, altitude := none } =
      Except.error StructuralError.notAJpeg :=
  ⟨rfl, encode_structural_failure [0, 1, 2] _ _ rfl⟩

/-- C6: for every tag store and every new GeoPosition, encode leaves every non-GPS tag
group (device/0th, capture-parameters/Exif, thumbnail/1st and thumbnail payload)
unchanged, hence byte-identical under the per-group serialization of the container;
only the GPS group is written. -/
theorem embed_preserves_non_gps_groups (e : ExifObj) (newGps : GPSData) :
    (embedStoreObj e newGps).zeroth = e.zeroth ∧
    (embedStoreObj e newGps).exif = e.exif ∧
    (embedStoreObj e newGps).first = e.first ∧
    (embedStoreObj e newGps).thumbnail = e.thumbnail ∧
    serializeGroup (embedStoreObj e newGps).zeroth = serializeGroup e.zeroth ∧
    serializeGroup (embedStoreObj e newGps).exif = serializeGroup e.exif ∧
    serializeGroup (embedStoreObj e newGps).first = serializeGroup e.first ∧
    piexifDump (embedStoreObj e newGps) =
      serializeGroup e.zeroth ++ serializeGroup e.exif ++
        serializeGroup (writeGpsTags e.gps newGps) ++ serializeGroup e.first ++
        (e.thumbnail.getD []) :=
  ⟨rfl, rfl, rfl, rfl, rfl, rfl, rfl, rfl⟩

/-- C7 counterexample: encode does NOT leave the caller's tag store unchanged.  With a
present (empty) raw store and any new position, the caller's store after the call holds
the freshly written GPS group: the source's `exifObj` aliases `metadata.rawExifObj`
and every tag assignment mutates it in place. -/
theorem encode_mutates_caller_store :
    callerStoreAfterEncode
      { make := none, model := none, dateTimeOriginal := none, gps := none,
        rawExifObj := some emptyExifObj }
      { lat := 0, lng := 0, altitude := none } ≠ some emptyExifObj := by
  intro h
  have h2 : embedStoreObj emptyExifObj { lat := 0, lng := 0, altitude := none } =
      emptyExifObj := by
    simpa [callerStoreAfterEncode] using h
  have h3 : writeGpsTags [] { lat := 0, lng := 0, altitude := none } = [] :=
    congrArg ExifObj.gps h2
  have h4 := getTag_writeGpsTags_mem [] { lat := 0, lng := 0, altitude := none }
    gpsLatitudeRefTag (TagValue.str (signRefLat 0))
    (by simp [gpsWriteList]) (by simp [gpsLatitudeRefTag, gpsVersionIDTag])
  rw [h3] at h4
  simp [getTag] at h4

/-- C7 (amended): encode does receive the caller's tag store and mutates it in place —
after the call the caller's rawExifObj holds the GPS-updated store rather than its
previous contents — but the mutation is idempotent, so repeating encode with the same
inputs is safe: the store is a fixed point of a second application and the output byte
stream is identical. -/
theorem encode_mutation_idempotent (mkV moV dtV : Option TagValue)
    (g0 : Option GPSData) (e : ExifObj) (newGps : GPSData) :
    callerStoreAfterEncode
        { make := mkV, model := moV, dateTimeOriginal := dtV, gps := g0,
          rawExifObj := some e } newGps = some (embedStoreObj e newGps) ∧
    embedStoreObj (embedStoreObj e newGps) newGps = embedStoreObj e newGps ∧
    ∀ bytes,
      embedExifData bytes
          { make := mkV, model := moV, dateTimeOriginal := dtV, gps := g0,
            rawExifObj := some (embedStoreObj e newGps) } newGps =
        embedExifData bytes
          { make := mkV, model := moV, dateTimeOriginal := dtV, gps := g0,
            rawExifObj := some e } newGps := by
  refine ⟨rfl, embedStoreObj_idem e newGps, fun bytes => ?_⟩
  simp only [embedExifData, Option.getD_some]
  rw [embedStoreObj_idem]

/-- C8: for every input position with altitude defined, encode writes the altitude
magnitude as a rational with denominator 100 rounded (half up) to the nearest
centimeter and a reference flag of 1 exactly when the altitude is negative, else 0;
and decoding the resulting store yields a GeoPosition whose altitude is that rational
divided out, negated exactly when the flag is 1. -/
theorem altitude_sign_roundtrip (e : ExifObj) (newGps : GPSData) (a : ℚ)
    (hA : newGps.altitude = some a) :
    getTag (embedStoreObj e newGps).gps gpsAltitudeTag =
      some (TagValue.rat (jsRound (|a| * 100), 100)) ∧
    getTag (embedStoreObj e newGps).gps gpsAltitudeRefTag =
      some (TagValue.num (if a < 0 then 1 else 0)) ∧
    ∃ gd : GPSData, (parseExifData (some (embedStoreObj e newGps))).gps = some gd ∧
      gd.altitude = some (if a < 0 then -((jsRound (|a| * 100) : ℚ) / 100)
        else (jsRound (|a| * 100) : ℚ) / 100) := by
  rcases newGps with ⟨la, ln, alt⟩
  simp only at hA
  subst hA
  have h2 := getTag_writeGpsTags_mem e.gps ⟨la, ln, some a⟩ gpsLatitudeTag
    (TagValue.rats (decimalToDms la)) (by simp [gpsWriteList])
    (by simp [gpsLatitudeTag, gpsVersionIDTag])
  have h1 := getTag_writeGpsTags_mem e.gps ⟨la, ln, some a⟩ gpsLatitudeRefTag
    (TagValue.str (signRefLat la)) (by simp [gpsWriteList])
    (by simp [gpsLatitudeRefTag, gpsVersionIDTag])
  have h4 := getTag_writeGpsTags_mem e.gps ⟨la, ln, some a⟩ gpsLongitudeTag
    (TagValue.rats (decimalToDms ln)) (by simp [gpsWriteList])
    (by simp [gpsLongitudeTag, gpsVersionIDTag])
  have h3 := getTag_writeGpsTags_mem e.gps ⟨la, ln, some a⟩ gpsLongitudeRefTag
    (TagValue.str (signRefLng ln)) (by simp [gpsWriteList])
    (by simp [gpsLongitudeRefTag, gpsVersionIDTag])
  have h6 := getTag_writeGpsTags_mem e.gps ⟨la, ln, some a⟩ gpsAltitudeTag
    (TagValue.rat (jsRound (|a| * 100), 100)) (by simp [gpsWriteList])
    (by simp [gpsAltitudeTag, gpsVersionIDTag])
  have h5 := getTag_writeGpsTags_mem e.gps ⟨la, ln, some a⟩ gpsAltitudeRefTag
    (TagValue.num (if a < 0 then 1 else 0)) (by simp [gpsWriteList])
    (by simp [gpsAltitudeRefTag, gpsVersionIDTag])
  refine ⟨h6, h5, ?_⟩
  simp only [parseExifData, embedStoreObj, h2, h1, h4, h3, h6, h5, truthyOpt,
    truthyVal, asRatValue, signRefLat_ne_empty, signRefLng_ne_empty, Bool.not_false,
    Bool.and_self, Bool.and_true, Bool.true_and, if_true]
  refine ⟨_, rfl, ?_⟩
  rcases lt_or_le a 0 with hneg | hpos
  · simp only [if_pos hneg]
    norm_num
  · have h0 : ¬ ((0 : ℤ) = 1) := by decide
    simp only [if_neg (not_lt.mpr hpos), if_neg h0]
    norm_num

/-- C10 counterexample: an edit in which latitude and longitude parse but the altitude
entry does not (parseFloat yields NaN, embedded as none) is NOT ignored: the working
position is replaced, with altitude defaulted to 0 — refuting "the edit is silently
ignored and the last valid working position is retained" for altitude failures. -/
theorem invalid_altitude_edit_applied :
    handleManualChange (some 1) (some 2) none
        { lat := 5, lng := 6, altitude := some 7 } ≠
      { lat := 5, lng := 6, altitude := some 7 } := by
  intro h
  have h2 := congrArg GPSData.lat h
  norm_num [handleManualChange] at h2

/-- C10 (amended): if the entered latitude or longitude fails to parse, the edit is
silently ignored and the last valid working position is retained; if both parse, the
edit is applied with altitude defaulting to 0 when its entry fails to parse.  In
neither case is a NaN (failed parse) value applied to the working GeoPosition. -/
theorem manual_change_spec (latP lngP altP : Option ℚ) (cur : GPSData) :
    ((latP = none ∨ lngP = none) → handleManualChange latP lngP altP cur = cur) ∧
    (∀ la ln, latP = some la → lngP = some ln →
      handleManualChange latP lngP altP cur =
        { lat := la, lng := ln, altitude := some (altP.getD 0) }) := by
  constructor
  · rintro (rfl | rfl)
    · rfl
    · cases latP with
      | none => rfl
      | some la => rfl
  · rintro la ln rfl rfl
    rfl

theorem manual_change_spec_witness :
    handleManualChange none (some 2) (some 3) { lat := 5, lng := 6, altitude := some 7 } =
      { lat := 5, lng := 6, altitude := some 7 } :=
  (manual_change_spec none (some 2) (some 3)
    { lat := 5, lng := 6, altitude := some 7 }).1 (Or.inl rfl)

theorem altitude_sign_roundtrip_witness :
    ({ lat := 0, lng := 0, altitude := some (-25 / 2) } : GPSData).altitude =
      some (-25 / 2) ∧
    (getTag (embedStoreObj emptyExifObj
        { lat := 0, lng := 0, altitude := some (-25 / 2) }).gps gpsAltitudeTag =
      some (TagValue.rat (jsRound (|(-25 / 2 : ℚ)| * 100), 100)) ∧
    getTag (embedStoreObj emptyExifObj
        { lat := 0, lng := 0, altitude := some (-25 / 2) }).gps gpsAltitudeRefTag =
      some (TagValue.num (if (-25 / 2 : ℚ) < 0 then 1 else 0)) ∧
    ∃ gd : GPSData,
      (parseExifData (some (embedStoreObj emptyExifObj
        { lat := 0, lng := 0, altitude := some (-25 / 2) }))).gps = some gd ∧
      gd.altitude = some (if (-25 / 2 : ℚ) < 0 then
          -((jsRound (|(-25 / 2 : ℚ)| * 100) : ℚ) / 100)
        else (jsRound (|(-25 / 2 : ℚ)| * 100) : ℚ) / 100)) :=
  ⟨rfl, altitude_sign_roundtrip emptyExifObj
    { lat := 0, lng := 0, altitude := some (-25 / 2) } (-25 / 2) rfl⟩

/-- The concrete values of the C8 example in the spec: altitude -12.5 is written as the
magnitude 1250/100 with reference flag 1, and decodes back to -12.5 exactly. -/
theorem altitude_minus_twelve_point_five :
    jsRound (|(-25 / 2 : ℚ)| * 100) = 1250 ∧
    (if (-25 / 2 : ℚ) < 0 then -((jsRound (|(-25 / 2 : ℚ)| * 100) : ℚ) / 100)
      else (jsRound (|(-25 / 2 : ℚ)| * 100) : ℚ) / 100) = -25 / 2 := by
  have h : jsRound (|(-25 / 2 : ℚ)| * 100) = 1250 := by
    have habs : |(-25 / 2 : ℚ)| = 25 / 2 := by
      rw [abs_of_nonpos (by norm_num)]
      norm_num
    rw [jsRound, habs]
    norm_num
  refine ⟨h, ?_⟩
  rw [if_pos (by norm_num : (-25 / 2 : ℚ) < 0), h]
  norm_num
